import Mathlib

/-
Verification of the loan re-engagement calculation core
(src/tools/loan_tools.py of the Anaya repository).

Numeric values are modelled as exact rationals; Python float arithmetic
inside the tool bodies is embedded as rational arithmetic, with the
exceptions Python raises (ZeroDivisionError from `/` and from `x ** n`
with x = 0 and n < 0) made explicit through an `Except` error channel,
mirroring the catch-all handlers at each tool boundary.
-/

namespace LoanTools

/-- Arithmetic failure raised inside a tool body and caught by the
catch-all handler at the tool boundary. -/
inductive PyErr
  | zeroDiv
  deriving DecidableEq

/-- Value of the Python power operator `b ** e` for an integer exponent,
in the cases where it does not raise. -/
def pyPowVal (b : ℚ) (e : ℤ) : ℚ :=
  if 0 ≤ e then b ^ e.toNat else (b ^ (-e).toNat)⁻¹

/-- Python `b ** e` for an integer exponent: raises ZeroDivisionError
when the base is zero and the exponent negative. -/
def pyPow (b : ℚ) (e : ℤ) : Except PyErr ℚ :=
  if b = 0 ∧ e < 0 then .error .zeroDiv else .ok (pyPowVal b e)

/-- Python division: raises ZeroDivisionError on a zero divisor. -/
def pyDiv (a b : ℚ) : Except PyErr ℚ :=
  if b = 0 then .error .zeroDiv else .ok (a / b)

/-- Result record of the EMI computation: the fields printed by the
breakdown text of `calculate_emi` (loan_tools.py lines 78-86). -/
structure EmiResult where
  emi : ℚ
  total_amount : ℚ
  total_interest : ℚ
  deriving DecidableEq

/-- Arithmetic body of `calculate_emi` (loan_tools.py lines 72-76):
`monthly_rate = (interest_rate / 100) / 12`;
`emi = loan_amount * monthly_rate * (1+monthly_rate) ** tenure_months /
((1+monthly_rate) ** tenure_months - 1)`;
`total_amount = emi * tenure_months`; `total_interest = total_amount - loan_amount`. -/
def emiCompute (loan_amount interest_rate : ℚ) (tenure_months : ℤ) :
    Except PyErr EmiResult :=
  let monthly_rate := interest_rate / 100 / 12
  match pyPow (1 + monthly_rate) tenure_months with
  | .error e => .error e
  | .ok pw =>
    match pyDiv (loan_amount * monthly_rate * pw) (pw - 1) with
    | .error e => .error e
    | .ok emi =>
      .ok ⟨emi, emi * (tenure_months : ℚ), emi * (tenure_months : ℚ) - loan_amount⟩

/-- The neutral message returned by `calculate_emi` when its body raises
(loan_tools.py line 89). -/
def unableEmiMessage : String :=
  "Unable to calculate EMI. Please check the input parameters."

/-- Caller-visible output of the `calculate_emi` tool: either the numeric
breakdown or the neutral failure message. -/
inductive EmiOutput
  | breakdown (r : EmiResult)
  | failure (msg : String)
  deriving DecidableEq

/-- The `calculate_emi` tool (loan_tools.py lines 58-89): the formula body
wrapped in the catch-all that converts any exception into the neutral
message. -/
def calculate_emi (loan_amount interest_rate : ℚ) (tenure_months : ℤ) : EmiOutput :=
  match emiCompute loan_amount interest_rate tenure_months with
  | .ok r => .breakdown r
  | .error _ => .failure unableEmiMessage

/-- The customer record read from session state: each field is `none` when
the corresponding key is absent from the data, matching the dictionary
lookups `customer_data.get(key, default)` in loan_tools.py. -/
structure CustomerData where
  loan_offer : Option ℚ := none
  interest_rate : Option ℚ := none
  tenure : Option ℤ := none
  processing_fee : Option ℚ := none
  account_age_years : Option ℤ := none
  is_salary_account : Option Bool := none
  avg_monthly_balance : Option ℚ := none
  credit_score : Option ℤ := none
  loan_history_score : Option String := none
  monthly_income : Option ℚ := none
  employment_type : Option String := none
  job_stability_years : Option ℤ := none
  is_festive_season : Option Bool := none
  has_existing_loans : Option Bool := none
  deriving DecidableEq

/-- Resolution of the loan amount (loan_tools.py line 298): the requested
amount when positive, otherwise the profile loan_offer, defaulting to 0. -/
def resolvedLoanAmount (cd : CustomerData) (loan_amount : ℚ) : ℚ :=
  if loan_amount > 0 then loan_amount else cd.loan_offer.getD 0

/-- Resolution of the tenure (loan_tools.py line 299): the requested
tenure when positive, otherwise the profile tenure, defaulting to 12. -/
def resolvedTenure (cd : CustomerData) (requested_tenure : ℤ) : ℤ :=
  if requested_tenure > 0 then requested_tenure else cd.tenure.getD 12

/-- Resolution of the base rate (loan_tools.py line 300): the profile
interest_rate, defaulting to 12.0 when absent. -/
def baseInterestRate (cd : CustomerData) : ℚ :=
  cd.interest_rate.getD 12

/-- Account age factor group (loan_tools.py lines 313-319). -/
def accountAgeDelta (account_age_years : ℤ) : ℚ :=
  if 5 ≤ account_age_years then -0.5
  else if 2 ≤ account_age_years then -0.25
  else if account_age_years < 1 then 0.25
  else 0

/-- Salary account factor group (loan_tools.py lines 322-325):
rate delta and processing fee multiplier. -/
def salaryAccountFactor (is_salary_account : Bool) : ℚ × ℚ :=
  if is_salary_account then (-0.3, 0.8) else (0, 1)

/-- Average monthly balance factor group (loan_tools.py lines 328-336):
rate delta and maximum loan multiplier. -/
def balanceFactor (avg_monthly_balance : ℚ) : ℚ × ℚ :=
  if 100000 ≤ avg_monthly_balance then (-0.4, 1.2)
  else if 50000 ≤ avg_monthly_balance then (-0.2, 1.1)
  else if avg_monthly_balance < 10000 then (0.3, 1)
  else (0, 1)

/-- Credit score factor group (loan_tools.py lines 341-353):
rate delta and maximum loan multiplier; the first matching tier fires. -/
def creditScoreFactor (credit_score : ℤ) : ℚ × ℚ :=
  if 800 ≤ credit_score then (-0.5, 1.3)
  else if 750 ≤ credit_score then (-0.25, 1)
  else if 700 ≤ credit_score then (0, 1)
  else if 650 ≤ credit_score then (0.5, 1)
  else (1, 0.8)

/-- Loan history factor group (loan_tools.py lines 356-363):
rate delta and processing fee multiplier. -/
def loanHistoryFactor (loan_history_score : String) : ℚ × ℚ :=
  if loan_history_score = "excellent" then (-0.3, 0.7)
  else if loan_history_score = "good" then (-0.1, 1)
  else if loan_history_score = "poor" then (0.5, 1)
  else (0, 1)

/-- Monthly income factor group (loan_tools.py lines 368-377):
rate delta and maximum loan multiplier. -/
def incomeFactor (monthly_income : ℚ) : ℚ × ℚ :=
  if 100000 ≤ monthly_income then (-0.2, 1.4)
  else if 75000 ≤ monthly_income then (-0.1, 1.2)
  else if monthly_income < 30000 then (0.3, 0.9)
  else (0, 1)

/-- Employment type factor group (loan_tools.py lines 380-388). -/
def employmentDelta (employment_type : String) : ℚ :=
  if employment_type = "government" then -0.4
  else if employment_type = "mnc" then -0.2
  else if employment_type = "self_employed" then 0.3
  else if employment_type = "business_owner" then 0.2
  else 0

/-- Job stability factor group (loan_tools.py lines 391-395). -/
def jobStabilityDelta (job_stability_years : ℤ) : ℚ :=
  if 3 ≤ job_stability_years then -0.1
  else if job_stability_years < 1 then 0.2
  else 0

/-- Loan amount bracket factor group (loan_tools.py lines 400-405). -/
def loanAmountDelta (base_loan_amount : ℚ) : ℚ :=
  if 2000000 ≤ base_loan_amount then -0.25
  else if 1000000 ≤ base_loan_amount then -0.15
  else if base_loan_amount < 200000 then 0.2
  else 0

/-- Tenure factor group (loan_tools.py lines 408-411). -/
def tenureDelta (base_tenure : ℤ) : ℚ :=
  if base_tenure ≤ 12 then -0.1
  else if 60 ≤ base_tenure then 0.2
  else 0

/-- Festive season factor group (loan_tools.py lines 416-419):
rate delta and processing fee multiplier. -/
def festiveFactor (is_festive_season : Bool) : ℚ × ℚ :=
  if is_festive_season then (-0.15, 0.9) else (0, 1)

/-- New loan customer incentive (loan_tools.py lines 422-424). -/
def existingLoansDelta (has_existing_loans : Bool) : ℚ :=
  if has_existing_loans then 0 else -0.1

/-- Cumulative `rate_adjustment` accumulated by `calculate_dynamic_pricing`
(loan_tools.py lines 306-424): the sum of the twelve factor group deltas,
each reading its profile attribute with the dictionary default of the
source (`account_age_years` 0, `is_salary_account` False,
`avg_monthly_balance` 0, `credit_score` 750, `loan_history_score` good,
`monthly_income` 0, `employment_type` salaried, `job_stability_years` 2,
`is_festive_season` False, `has_existing_loans` False). -/
def rateAdjustment (cd : CustomerData) (base_loan_amount : ℚ) (base_tenure : ℤ) : ℚ :=
  accountAgeDelta (cd.account_age_years.getD 0)
  + (salaryAccountFactor (cd.is_salary_account.getD false)).1
  + (balanceFactor (cd.avg_monthly_balance.getD 0)).1
  + (creditScoreFactor (cd.credit_score.getD 750)).1
  + (loanHistoryFactor (cd.loan_history_score.getD "good")).1
  + (incomeFactor (cd.monthly_income.getD 0)).1
  + employmentDelta (cd.employment_type.getD "salaried")
  + jobStabilityDelta (cd.job_stability_years.getD 2)
  + loanAmountDelta base_loan_amount
  + tenureDelta base_tenure
  + (festiveFactor (cd.is_festive_season.getD false)).1
  + existingLoansDelta (cd.has_existing_loans.getD false)

/-- The processing fee multiplier accumulated by `calculate_dynamic_pricing`
(loan_tools.py lines 307, 325, 359, 419): the product of the fee
multipliers contributed by the salary account, loan history and festive
season factor groups. -/
def processingFeeMultiplier (cd : CustomerData) : ℚ :=
  (salaryAccountFactor (cd.is_salary_account.getD false)).2
  * (loanHistoryFactor (cd.loan_history_score.getD "good")).2
  * (festiveFactor (cd.is_festive_season.getD false)).2

/-- The maximum loan multiplier accumulated by `calculate_dynamic_pricing`
(loan_tools.py lines 308, 331, 334, 344, 353, 371, 374, 377): the product
of the limit multipliers contributed by the balance, credit score and
income factor groups. -/
def maxLoanMultiplier (cd : CustomerData) : ℚ :=
  (balanceFactor (cd.avg_monthly_balance.getD 0)).2
  * (creditScoreFactor (cd.credit_score.getD 750)).2
  * (incomeFactor (cd.monthly_income.getD 0)).2

/-- The explanation factor tags built at loan_tools.py lines 452-462 (tags
rendered without their emoji prefixes). -/
def explanationFactors (cd : CustomerData) (rate_adjustment : ℚ) : List String :=
  (if rate_adjustment < -0.1 then ["Excellent banking relationship"] else [])
  ++ (if 750 ≤ cd.credit_score.getD 750 then ["Strong credit profile"] else [])
  ++ (if cd.is_salary_account.getD false then ["Salary account holder"] else [])
  ++ (if 75000 ≤ cd.monthly_income.getD 0 then ["High income bracket"] else [])
  ++ (if rate_adjustment > 0.1 then ["Risk factors considered"] else [])

/-- Failure outcomes of `calculate_dynamic_pricing`: the explicit
missing-data message of loan_tools.py line 303, and the generic message of
line 510 produced when the arithmetic raises and the catch-all fires. -/
inductive PricingError
  | missingData
  | arithmetic
  deriving DecidableEq

/-- The numeric and explanatory fields of the pricing analysis text built
by `calculate_dynamic_pricing` (loan_tools.py lines 426-504). -/
structure PricingResult where
  final_interest_rate : ℚ
  rate_adjustment : ℚ
  final_emi : ℚ
  final_processing_fee : ℚ
  max_eligible_amount : ℚ
  explanation_factors : List String
  monthly_difference : ℚ
  total_difference : ℚ
  deriving DecidableEq

/-- The `calculate_dynamic_pricing` tool (loan_tools.py lines 281-510).
The guard at line 302 (`if not base_loan_amount or not base_interest_rate`)
tests Python falsiness, i.e. equality with zero; the final rate is
`max(8.0, min(18.0, base_interest_rate + rate_adjustment))` (line 429);
the two EMI evaluations at lines 439-446 can divide by zero, in which case
the catch-all converts the exception into the generic failure message. -/
def calculate_dynamic_pricing (cd : CustomerData) (loan_amount : ℚ)
    (requested_tenure : ℤ) : Except PricingError PricingResult :=
  let base_loan_amount := resolvedLoanAmount cd loan_amount
  let base_tenure := resolvedTenure cd requested_tenure
  let base_interest_rate := baseInterestRate cd
  if base_loan_amount = 0 ∨ base_interest_rate = 0 then .error .missingData
  else
    let rate_adjustment := rateAdjustment cd base_loan_amount base_tenure
    let final_interest_rate := max 8 (min 18 (base_interest_rate + rate_adjustment))
    let max_eligible_amount := base_loan_amount * maxLoanMultiplier cd
    let base_processing_fee := cd.processing_fee.getD (base_loan_amount * 0.02)
    let final_processing_fee := base_processing_fee * processingFeeMultiplier cd
    let monthly_rate := final_interest_rate / 100 / 12
    let base_monthly_rate := base_interest_rate / 100 / 12
    match pyPow (1 + monthly_rate) base_tenure,
          pyPow (1 + base_monthly_rate) base_tenure with
    | .ok pw, .ok bpw =>
      match pyDiv (base_loan_amount * monthly_rate * pw) (pw - 1),
            pyDiv (base_loan_amount * base_monthly_rate * bpw) (bpw - 1) with
      | .ok final_emi, .ok base_emi =>
        .ok { final_interest_rate := final_interest_rate
              rate_adjustment := rate_adjustment
              final_emi := final_emi
              final_processing_fee := final_processing_fee
              max_eligible_amount := max_eligible_amount
              explanation_factors := explanationFactors cd rate_adjustment
              monthly_difference := final_emi - base_emi
              total_difference := (final_emi - base_emi) * (base_tenure : ℚ) }
      | _, _ => .error .arithmetic
    | _, _ => .error .arithmetic

/-- Whether an `Except` value is a success. -/
def exceptOk {ε α : Type} : Except ε α → Bool
  | .ok _ => true
  | .error _ => false

/-- The `final_interest_rate` of a successful pricing outcome, zero on
failure. -/
def pricedRateD (e : Except PricingError PricingResult) : ℚ :=
  match e with
  | .ok r => r.final_interest_rate
  | .error _ => 0

/-- The `rate_adjustment` of a successful pricing outcome, zero on
failure. -/
def pricedAdjD (e : Except PricingError PricingResult) : ℚ :=
  match e with
  | .ok r => r.rate_adjustment
  | .error _ => 0

/-- One block of the tenure comparison table appended by
`calculate_loan_savings` for a candidate tenure (loan_tools.py
lines 268-272). -/
structure TenureOption where
  tenure : ℤ
  emi : ℚ
  interest_difference : ℚ
  deriving DecidableEq

/-- The prepayment comparison block appended by `calculate_loan_savings`
(loan_tools.py lines 252-257). -/
structure PrepaymentComparison where
  new_emi : ℚ
  interest_saved : ℚ
  new_total_amount : ℚ
  deriving DecidableEq

/-- The numeric content of the text returned by `calculate_loan_savings`:
the current loan structure block (always present on success) and the
optional prepayment and tenure comparison blocks. -/
structure SavingsResult where
  current_emi : ℚ
  current_interest : ℚ
  current_total : ℚ
  prepayment : Option PrepaymentComparison
  tenure_options : List TenureOption
  deriving DecidableEq

/-- Caller-visible outcome of `calculate_loan_savings`: the missing
parameter message of loan_tools.py line 227, the generic failure message
of line 278 when the arithmetic raises, or the composed text. -/
inductive SavingsOutput
  | missingParams
  | failure
  | result (r : SavingsResult)
  deriving DecidableEq

/-- The tenure option loop of `calculate_loan_savings` (loan_tools.py
lines 260-272): for each candidate tenure different from the current one,
compute the EMI and interest at the same principal and monthly rate and
record the interest difference against the current interest. -/
def tenureOptionsLoop (loan_amount monthly_rate current_interest : ℚ)
    (tenure : ℤ) : List ℤ → Except PyErr (List TenureOption)
  | [] => .ok []
  | new_tenure :: rest =>
    if new_tenure ≠ tenure then
      match pyPow (1 + monthly_rate) new_tenure with
      | .error e => .error e
      | .ok pw =>
        match pyDiv (loan_amount * monthly_rate * pw) (pw - 1) with
        | .error e => .error e
        | .ok new_emi =>
          match tenureOptionsLoop loan_amount monthly_rate current_interest tenure rest with
          | .error e => .error e
          | .ok others =>
            .ok (⟨new_tenure, new_emi,
                  current_interest - (new_emi * (new_tenure : ℚ) - loan_amount)⟩ :: others)
    else tenureOptionsLoop loan_amount monthly_rate current_interest tenure rest

/-- The `calculate_loan_savings` tool (loan_tools.py lines 209-278).
The guard at line 226 (`if not all([loan_amount, interest_rate, tenure])`)
tests Python falsiness of the three profile values, i.e. equality with
zero; a positive `prepayment_amount` selects the prepayment branch, whose
comparison is emitted only when `loan_amount - prepayment_amount > 0`;
otherwise the four-tenure comparison loop runs. -/
def calculate_loan_savings (cd : CustomerData) (prepayment_amount : ℚ) :
    SavingsOutput :=
  let loan_amount := cd.loan_offer.getD 0
  let interest_rate := cd.interest_rate.getD 0
  let tenure := cd.tenure.getD 12
  if loan_amount = 0 ∨ interest_rate = 0 ∨ tenure = 0 then .missingParams
  else
    let monthly_rate := interest_rate / 100 / 12
    match pyPow (1 + monthly_rate) tenure with
    | .error _ => .failure
    | .ok pw =>
      match pyDiv (loan_amount * monthly_rate * pw) (pw - 1) with
      | .error _ => .failure
      | .ok current_emi =>
        let current_total := current_emi * (tenure : ℚ)
        let current_interest := current_total - loan_amount
        if prepayment_amount > 0 then
          let remaining_principal := loan_amount - prepayment_amount
          if remaining_principal > 0 then
            match pyPow (1 + monthly_rate) tenure with
            | .error _ => .failure
            | .ok npw =>
              match pyDiv (remaining_principal * monthly_rate * npw) (npw - 1) with
              | .error _ => .failure
              | .ok new_emi =>
                let new_total := new_emi * (tenure : ℚ) + prepayment_amount
                let new_interest := new_total - loan_amount
                .result ⟨current_emi, current_interest, current_total,
                         some ⟨new_emi, current_interest - new_interest, new_total⟩, []⟩
          else
            .result ⟨current_emi, current_interest, current_total, none, []⟩
        else
          match tenureOptionsLoop loan_amount monthly_rate current_interest tenure
                  [12, 24, 36, 60] with
          | .error _ => .failure
          | .ok opts =>
            .result ⟨current_emi, current_interest, current_total, none, opts⟩

/-- Value of the reducing-balance EMI formula at a principal, annual rate
and tenure, in the cases where the power does not raise; used to state
what each emitted comparison contains. -/
def formulaEmi (principal annual_rate : ℚ) (t : ℤ) : ℚ :=
  let mr := annual_rate / 100 / 12
  principal * mr * pyPowVal (1 + mr) t / (pyPowVal (1 + mr) t - 1)

/-- The tenure comparison block the source emits for one candidate tenure,
expressed directly through the reducing-balance formula at the profile
rate. -/
def tenureComparisonSpec (cd : CustomerData) (nt : ℤ) : TenureOption :=
  let L := cd.loan_offer.getD 0
  let R := cd.interest_rate.getD 0
  let T := cd.tenure.getD 12
  ⟨nt, formulaEmi L R nt,
    (formulaEmi L R T * (T : ℚ) - L) - (formulaEmi L R nt * (nt : ℚ) - L)⟩

/-- The full tenure comparison table expected from the savings tool: one
block per candidate in 12, 24, 36, 60 other than the current tenure. -/
def expectedTenureOptions (cd : CustomerData) : List TenureOption :=
  (([12, 24, 36, 60] : List ℤ).filter (fun nt => nt ≠ cd.tenure.getD 12)).map
    (tenureComparisonSpec cd)

/-- A profile with every attribute absent. -/
def emptyProfile : CustomerData := {}

/-- The worked example profile of the specification: loan offer 500000 at
base rate 10.5 over 24 months, credit score 820, salary account, balance
120000, income 90000, salaried, account age 6 years. -/
def c3profile : CustomerData :=
  { loan_offer := some 500000, interest_rate := some 10.5, tenure := some 24,
    credit_score := some 820, is_salary_account := some true,
    avg_monthly_balance := some 120000, monthly_income := some 90000,
    employment_type := some "salaried", account_age_years := some 6 }

/-- A profile with a nonzero loan offer whose interest rate key is absent
from the data. -/
def absentRateProfile : CustomerData :=
  { loan_offer := some 100000, tenure := some 12 }

/-- A valid-looking offer profile used to instantiate the universally
quantified theorems: loan offer 500000 at 10.5 percent over 24 months. -/
def witnessProfile : CustomerData :=
  { loan_offer := some 500000, interest_rate := some 10.5, tenure := some 24 }

/-- A profile whose loan offer, rate and tenure are all non-zero but whose
degenerate rate of -2400 percent makes the reducing-balance denominator
vanish at the even tenure 2. -/
def degenerateRateProfile : CustomerData :=
  { loan_offer := some 100000, interest_rate := some (-2400), tenure := some 2 }

end LoanTools

namespace LoanTools

/-- A division with a nonzero divisor does not raise. -/
lemma pyDiv_ok {a b : ℚ} (hb : b ≠ 0) : pyDiv a b = .ok (a / b) := by
  unfold pyDiv
  exact if_neg hb

/-- A power with a nonnegative exponent does not raise. -/
lemma pyPow_nonneg (b : ℚ) {e : ℤ} (he : 0 ≤ e) :
    pyPow b e = .ok (b ^ e.toNat) := by
  unfold pyPow pyPowVal
  rw [if_neg (by omega : ¬(b = 0 ∧ e < 0)), if_pos he]

/-- With a positive monthly rate and at least one month of tenure, the
reducing-balance denominator is positive. -/
lemma denom_pos {x : ℚ} (hx : 0 < x) {n : ℕ} (hn : n ≠ 0) :
    0 < (1 + x) ^ n - 1 := by
  have := one_lt_pow₀ (by linarith : (1 : ℚ) < 1 + x) hn
  linarith

/-- Whenever the resolved loan amount is nonzero, the base rate positive
and the resolved tenure positive, the pricing engine succeeds, and the
returned record carries the accumulated rate adjustment together with the
clamped final rate. -/
lemma pricing_ok_fields (cd : CustomerData) (la : ℚ) (rt : ℤ)
    (hL : resolvedLoanAmount cd la ≠ 0) (hR : 0 < baseInterestRate cd)
    (hT : 0 < resolvedTenure cd rt) :
    ∃ r : PricingResult, calculate_dynamic_pricing cd la rt = .ok r ∧
      r.rate_adjustment = rateAdjustment cd (resolvedLoanAmount cd la) (resolvedTenure cd rt) ∧
      r.final_interest_rate = max 8 (min 18 (baseInterestRate cd +
        rateAdjustment cd (resolvedLoanAmount cd la) (resolvedTenure cd rt))) := by
  have hguard : ¬(resolvedLoanAmount cd la = 0 ∨ baseInterestRate cd = 0) := by
    push_neg
    exact ⟨hL, ne_of_gt hR⟩
  simp only [calculate_dynamic_pricing]
  rw [if_neg hguard]
  set adj := rateAdjustment cd (resolvedLoanAmount cd la) (resolvedTenure cd rt) with hadj
  set fr := max 8 (min 18 (baseInterestRate cd + adj)) with hfr
  have hfrpos : 0 < fr := lt_of_lt_of_le (by norm_num) (le_max_left _ _)
  have hmr : 0 < fr / 100 / 12 := by positivity
  have hbmr : 0 < baseInterestRate cd / 100 / 12 := by positivity
  have htn : (resolvedTenure cd rt).toNat ≠ 0 := by omega
  rw [pyPow_nonneg _ hT.le, pyPow_nonneg _ hT.le]
  have hd1 : (1 + fr / 100 / 12) ^ (resolvedTenure cd rt).toNat - 1 ≠ 0 :=
    ne_of_gt (denom_pos hmr htn)
  have hd2 : (1 + baseInterestRate cd / 100 / 12) ^ (resolvedTenure cd rt).toNat - 1 ≠ 0 :=
    ne_of_gt (denom_pos hbmr htn)
  dsimp only
  rw [pyDiv_ok hd1, pyDiv_ok hd2]
  exact ⟨_, rfl, rfl, rfl⟩

/-- Claim C2 (code_bug): the specification requires the EMI calculation at
annual rate exactly 0 to return principal / tenure (1200 / 12 = 100), with
the implementation special-casing `monthly_rate == 0`; the source has no
such special case — at rate 0 the denominator `(1+0) ** 12 - 1` is zero,
the division raises, and the catch-all returns the neutral failure
message instead of a breakdown. -/
theorem emi_zero_rate_failure :
    calculate_emi 1200 0 12 = .failure unableEmiMessage ∧
    exceptOk (emiCompute 1200 0 12) = false := by
  norm_num [calculate_emi, emiCompute, pyPow, pyPowVal, pyDiv, exceptOk]

/-- Counterexample for claim C3: on the worked example profile with an
empty request, the engine does not produce a rate adjustment of -2.3 nor a
final rate of 8.2 (the first conjunct shows the outcome is a priced result,
so the projections read the actual fields, not defaults). -/
theorem c3_profile_refutes_spec_numbers :
    exceptOk (calculate_dynamic_pricing c3profile 0 0) = true ∧
    pricedAdjD (calculate_dynamic_pricing c3profile 0 0) ≠ -2.3 ∧
    pricedRateD (calculate_dynamic_pricing c3profile 0 0) ≠ 8.2 := by
  obtain ⟨r, hok, hadj, hrate⟩ := pricing_ok_fields c3profile 0 0
    (by norm_num [resolvedLoanAmount, c3profile])
    (by norm_num [baseInterestRate, c3profile])
    (by norm_num [resolvedTenure, c3profile])
  have hadjv : rateAdjustment c3profile (resolvedLoanAmount c3profile 0) (resolvedTenure c3profile 0) = -2 := by
    simp only [rateAdjustment, accountAgeDelta, salaryAccountFactor, balanceFactor,
      creditScoreFactor, loanHistoryFactor, incomeFactor, employmentDelta, jobStabilityDelta,
      loanAmountDelta, tenureDelta, festiveFactor, existingLoansDelta, resolvedLoanAmount,
      resolvedTenure, c3profile, Option.getD]
    simp only [String.reduceEq, reduceIte]
    norm_num
  rw [hok]
  rw [hadjv] at hadj hrate
  norm_num [exceptOk, pricedAdjD, pricedRateD, hadj, hrate, baseInterestRate, c3profile]

/-- Claim C3 (amended): on the worked example profile with an empty
request, the cumulative rate adjustment is -2.0 percentage points (the
defaulted loan history good contributes -0.1, the defaulted job stability
of 2 years contributes nothing, and the no-existing-loans incentive
contributes -0.1, so the sum of six discounts stated by the spec is not
what the code accumulates) and the final interest rate is 10.5 - 2.0 = 8.5. -/
theorem c3_profile_values :
    exceptOk (calculate_dynamic_pricing c3profile 0 0) = true ∧
    pricedAdjD (calculate_dynamic_pricing c3profile 0 0) = -2 ∧
    pricedRateD (calculate_dynamic_pricing c3profile 0 0) = 8.5 := by
  obtain ⟨r, hok, hadj, hrate⟩ := pricing_ok_fields c3profile 0 0
    (by norm_num [resolvedLoanAmount, c3profile])
    (by norm_num [baseInterestRate, c3profile])
    (by norm_num [resolvedTenure, c3profile])
  have hadjv : rateAdjustment c3profile (resolvedLoanAmount c3profile 0) (resolvedTenure c3profile 0) = -2 := by
    simp only [rateAdjustment, accountAgeDelta, salaryAccountFactor, balanceFactor,
      creditScoreFactor, loanHistoryFactor, incomeFactor, employmentDelta, jobStabilityDelta,
      loanAmountDelta, tenureDelta, festiveFactor, existingLoansDelta, resolvedLoanAmount,
      resolvedTenure, c3profile, Option.getD]
    simp only [String.reduceEq, reduceIte]
    norm_num
  rw [hok]
  rw [hadjv] at hadj hrate
  norm_num [exceptOk, pricedAdjD, pricedRateD, hadj, hrate, baseInterestRate, c3profile]

/-- Counterexample for claim C4: a profile whose interest rate is absent
does not make the engine fail — the rate defaults to 12.0 and a priced
result is returned, contrary to the claim that an absent base rate yields
the missing-data outcome. -/
theorem absent_rate_prices_successfully :
    absentRateProfile.interest_rate = none ∧
    absentRateProfile.loan_offer.getD 0 ≠ 0 ∧
    exceptOk (calculate_dynamic_pricing absentRateProfile 0 0) = true := by
  obtain ⟨r, hok, -, -⟩ := pricing_ok_fields absentRateProfile 0 0
    (by norm_num [resolvedLoanAmount, absentRateProfile])
    (by norm_num [baseInterestRate, absentRateProfile])
    (by norm_num [resolvedTenure, absentRateProfile])
  rw [hok]
  norm_num [absentRateProfile, exceptOk]

/-- Claim C1: whenever the pricing engine returns a priced result, the
final interest rate lies in the closed interval [8, 18]; moreover, when
the adjusted rate (base rate plus cumulative adjustment) reaches 18 or
more the result is pinned to 18, and when it is 8 or less the result is
pinned to 8 — so arbitrarily extreme profiles cannot escape the clamp. -/
theorem final_rate_within_bounds (cd : CustomerData) (loan_amount : ℚ)
    (requested_tenure : ℤ) (r : PricingResult)
    (h : calculate_dynamic_pricing cd loan_amount requested_tenure = .ok r) :
    (8 ≤ r.final_interest_rate ∧ r.final_interest_rate ≤ 18) ∧
    (18 ≤ baseInterestRate cd + rateAdjustment cd (resolvedLoanAmount cd loan_amount)
        (resolvedTenure cd requested_tenure) → r.final_interest_rate = 18) ∧
    (baseInterestRate cd + rateAdjustment cd (resolvedLoanAmount cd loan_amount)
        (resolvedTenure cd requested_tenure) ≤ 8 → r.final_interest_rate = 8) := by
  simp only [calculate_dynamic_pricing] at h
  split at h
  · exact Except.noConfusion h
  · split at h
    · split at h
      · injection h with h
        subst h
        dsimp only
        refine ⟨⟨le_max_left _ _, max_le (by norm_num) (min_le_left _ _)⟩, ?_, ?_⟩
        · intro h18
          rw [min_eq_left h18, max_eq_right (by norm_num : (8 : ℚ) ≤ 18)]
        · intro h8
          rw [min_eq_right (h8.trans (by norm_num)), max_eq_left h8]
      · exact Except.noConfusion h
    · exact Except.noConfusion h

/-- Witness for C1 at a concrete accepted request. -/
theorem final_rate_within_bounds_witness :
    8 ≤ pricedRateD (calculate_dynamic_pricing witnessProfile 0 0) ∧
    pricedRateD (calculate_dynamic_pricing witnessProfile 0 0) ≤ 18 := by
  obtain ⟨r, hok, -, -⟩ := pricing_ok_fields witnessProfile 0 0
    (by norm_num [resolvedLoanAmount, witnessProfile])
    (by norm_num [baseInterestRate, witnessProfile])
    (by norm_num [resolvedTenure, witnessProfile])
  have hb := (final_rate_within_bounds witnessProfile 0 0 r hok).1
  rw [hok]
  simpa [pricedRateD] using hb

/-- Claim C4 (amended): the engine returns the missing-data outcome
exactly when the resolved loan amount (the requested amount when positive,
otherwise the profile loan offer, otherwise 0) is zero or the resolved
base rate is zero; an interest rate absent from the profile defaults to
12.0 and therefore prices successfully, and with a nonzero resolved
amount, a positive base rate and a positive resolved tenure a priced
result is returned. -/
theorem missing_data_characterization (cd : CustomerData) (loan_amount : ℚ)
    (requested_tenure : ℤ) :
    (calculate_dynamic_pricing cd loan_amount requested_tenure = .error .missingData ↔
      resolvedLoanAmount cd loan_amount = 0 ∨ baseInterestRate cd = 0) ∧
    (resolvedLoanAmount cd loan_amount ≠ 0 → 0 < baseInterestRate cd →
      0 < resolvedTenure cd requested_tenure →
      exceptOk (calculate_dynamic_pricing cd loan_amount requested_tenure) = true) := by
  constructor
  · constructor
    · intro h
      by_contra hc
      simp only [calculate_dynamic_pricing] at h
      rw [if_neg hc] at h
      split at h
      · split at h
        · exact Except.noConfusion h
        · injection h with h
          exact PricingError.noConfusion h
      · injection h with h
        exact PricingError.noConfusion h
    · intro h
      simp only [calculate_dynamic_pricing]
      rw [if_pos h]
  · intro hL hR hT
    obtain ⟨r, hok, -, -⟩ := pricing_ok_fields cd loan_amount requested_tenure hL hR hT
    rw [hok]
    rfl

/-- Witness for C4 (amended) at a concrete profile. -/
theorem missing_data_characterization_witness :
    exceptOk (calculate_dynamic_pricing witnessProfile 5000 6) = true :=
  (missing_data_characterization witnessProfile 5000 6).2
    (by norm_num [resolvedLoanAmount, witnessProfile])
    (by norm_num [baseInterestRate, witnessProfile])
    (by norm_num [resolvedTenure, witnessProfile])

/-- Claim C9: on every profile and request, the cumulative rate
adjustment lies between -3.30 (all twelve discounts at their extremes)
and +3.25 (all premiums at their extremes). -/
theorem rate_adjustment_bounds (cd : CustomerData) (amt : ℚ) (t : ℤ) :
    -3.3 ≤ rateAdjustment cd amt t ∧ rateAdjustment cd amt t ≤ 3.25 := by
  have h1 : -0.5 ≤ accountAgeDelta (cd.account_age_years.getD 0) ∧
      accountAgeDelta (cd.account_age_years.getD 0) ≤ 0.25 := by
    unfold accountAgeDelta
    split_ifs <;> norm_num
  have h2 : -0.3 ≤ (salaryAccountFactor (cd.is_salary_account.getD false)).1 ∧
      (salaryAccountFactor (cd.is_salary_account.getD false)).1 ≤ 0 := by
    unfold salaryAccountFactor
    split_ifs <;> norm_num
  have h3 : -0.4 ≤ (balanceFactor (cd.avg_monthly_balance.getD 0)).1 ∧
      (balanceFactor (cd.avg_monthly_balance.getD 0)).1 ≤ 0.3 := by
    unfold balanceFactor
    split_ifs <;> norm_num
  have h4 : -0.5 ≤ (creditScoreFactor (cd.credit_score.getD 750)).1 ∧
      (creditScoreFactor (cd.credit_score.getD 750)).1 ≤ 1 := by
    unfold creditScoreFactor
    split_ifs <;> norm_num
  have h5 : -0.3 ≤ (loanHistoryFactor (cd.loan_history_score.getD "good")).1 ∧
      (loanHistoryFactor (cd.loan_history_score.getD "good")).1 ≤ 0.5 := by
    unfold loanHistoryFactor
    split_ifs <;> norm_num
  have h6 : -0.2 ≤ (incomeFactor (cd.monthly_income.getD 0)).1 ∧
      (incomeFactor (cd.monthly_income.getD 0)).1 ≤ 0.3 := by
    unfold incomeFactor
    split_ifs <;> norm_num
  have h7 : -0.4 ≤ employmentDelta (cd.employment_type.getD "salaried") ∧
      employmentDelta (cd.employment_type.getD "salaried") ≤ 0.3 := by
    unfold employmentDelta
    split_ifs <;> norm_num
  have h8 : -0.1 ≤ jobStabilityDelta (cd.job_stability_years.getD 2) ∧
      jobStabilityDelta (cd.job_stability_years.getD 2) ≤ 0.2 := by
    unfold jobStabilityDelta
    split_ifs <;> norm_num
  have h9 : -0.25 ≤ loanAmountDelta amt ∧ loanAmountDelta amt ≤ 0.2 := by
    unfold loanAmountDelta
    split_ifs <;> norm_num
  have h10 : -0.1 ≤ tenureDelta t ∧ tenureDelta t ≤ 0.2 := by
    unfold tenureDelta
    split_ifs <;> norm_num
  have h11 : -0.15 ≤ (festiveFactor (cd.is_festive_season.getD false)).1 ∧
      (festiveFactor (cd.is_festive_season.getD false)).1 ≤ 0 := by
    unfold festiveFactor
    split_ifs <;> norm_num
  have h12 : -0.1 ≤ existingLoansDelta (cd.has_existing_loans.getD false) ∧
      existingLoansDelta (cd.has_existing_loans.getD false) ≤ 0 := by
    unfold existingLoansDelta
    split_ifs <;> norm_num
  unfold rateAdjustment
  constructor
  · linarith [h1.1, h2.1, h3.1, h4.1, h5.1, h6.1, h7.1, h8.1, h9.1, h10.1, h11.1, h12.1]
  · linarith [h1.2, h2.2, h3.2, h4.2, h5.2, h6.2, h7.2, h8.2, h9.2, h10.2, h11.2, h12.2]

/-- The credit score rate delta never increases when the score does. -/
lemma creditScoreFactor_fst_antitone {s1 s2 : ℤ} (h : s1 ≤ s2) :
    (creditScoreFactor s2).1 ≤ (creditScoreFactor s1).1 := by
  unfold creditScoreFactor
  split_ifs <;> first | (exfalso; omega) | norm_num

/-- Claim C6: holding every other profile and request attribute fixed,
raising the credit score never increases the cumulative rate adjustment;
this covers in particular each tier boundary crossing (649 to 650, 699 to
700, 749 to 750, 799 to 800). -/
theorem credit_score_monotone (cd : CustomerData) (amt : ℚ) (t : ℤ)
    (s1 s2 : ℤ) (h : s1 ≤ s2) :
    rateAdjustment { cd with credit_score := some s2 } amt t ≤
      rateAdjustment { cd with credit_score := some s1 } amt t := by
  unfold rateAdjustment
  dsimp only
  simp only [Option.getD_some]
  have hmono := creditScoreFactor_fst_antitone h
  linarith

/-- Witness for C6 at the 649 to 650 boundary. -/
theorem credit_score_monotone_witness :
    rateAdjustment { emptyProfile with credit_score := some 650 } 500000 24 ≤
      rateAdjustment { emptyProfile with credit_score := some 649 } 500000 24 :=
  credit_score_monotone emptyProfile 500000 24 649 650 (by decide)

/-- With a positive rate and a positive tenure the EMI body evaluates to
the reducing-balance formula without raising. -/
lemma emiCompute_ok (p r : ℚ) (t : ℤ) (hr : 0 < r) (ht : 0 < t) :
    emiCompute p r t = .ok
      ⟨p * (r / 100 / 12) * (1 + r / 100 / 12) ^ t.toNat /
          ((1 + r / 100 / 12) ^ t.toNat - 1),
        p * (r / 100 / 12) * (1 + r / 100 / 12) ^ t.toNat /
          ((1 + r / 100 / 12) ^ t.toNat - 1) * (t : ℚ),
        p * (r / 100 / 12) * (1 + r / 100 / 12) ^ t.toNat /
          ((1 + r / 100 / 12) ^ t.toNat - 1) * (t : ℚ) - p⟩ := by
  have hmr : 0 < r / 100 / 12 := by positivity
  have htn : t.toNat ≠ 0 := by omega
  simp only [emiCompute]
  rw [pyPow_nonneg _ ht.le]
  dsimp only
  rw [pyDiv_ok (ne_of_gt (denom_pos hmr htn))]

/-- Counterexample for claim C5: the EMI tool performs no parameter
validation — at a negative principal (with positive rate and tenure) it
returns a numeric breakdown, not the neutral failure message the claim
requires for every principal below zero. -/
theorem emi_accepts_negative_principal :
    exceptOk (emiCompute (-100000) 12 12) = true ∧
    calculate_emi (-100000) 12 12 ≠ .failure unableEmiMessage := by
  have h := emiCompute_ok (-100000) 12 12 (by norm_num) (by norm_num)
  constructor
  · rw [h]
    rfl
  · simp only [calculate_emi, h]
    exact fun hc => EmiOutput.noConfusion hc

/-- Claim C5 (amended): the EMI tool fails — with the neutral unable to
calculate message — exactly when its arithmetic raises: when the power
itself is undefined (base 1 + monthly_rate equal to zero with a negative
tenure) or the denominator power equals one (as at tenure 0 or rate 0);
for any other input, including negative principal, negative rate or
negative tenure, it returns a numeric breakdown. -/
theorem emi_failure_characterization (loan_amount interest_rate : ℚ)
    (tenure_months : ℤ) :
    calculate_emi loan_amount interest_rate tenure_months = .failure unableEmiMessage ↔
      ((1 + interest_rate / 100 / 12 = 0 ∧ tenure_months < 0) ∨
        pyPowVal (1 + interest_rate / 100 / 12) tenure_months = 1) := by
  simp only [calculate_emi, emiCompute, pyPow, pyDiv]
  by_cases h1 : 1 + interest_rate / 100 / 12 = 0 ∧ tenure_months < 0
  · rw [if_pos h1]
    simp [h1]
  · rw [if_neg h1]
    dsimp only
    by_cases h2 : pyPowVal (1 + interest_rate / 100 / 12) tenure_months - 1 = 0
    · rw [if_pos h2]
      simp [h1, sub_eq_zero.mp h2]
    · rw [if_neg h2]
      dsimp only
      constructor
      · intro hc
        exact EmiOutput.noConfusion hc
      · rintro (hc | hc)
        · exact absurd hc h1
        · exact absurd (by rw [hc]; ring) h2

/-- Each additional month multiplies the outstanding growth factor, so the
accumulated factor excess is dominated by the per-month rate times the
months times the factor. -/
lemma pow_sub_one_le (x : ℚ) (hx : 0 ≤ x) (n : ℕ) :
    (1 + x) ^ n - 1 ≤ n * x * (1 + x) ^ n := by
  induction n with
  | zero => simp
  | succ n ih =>
    have h2 : (1 : ℚ) ≤ (1 + x) ^ (n + 1) := one_le_pow₀ (by linarith)
    have h3 : ((1 + x) ^ n - 1) * (1 + x) ≤ n * x * (1 + x) ^ n * (1 + x) :=
      mul_le_mul_of_nonneg_right ih (by linarith)
    have h4 : x * 1 ≤ x * (1 + x) ^ (n + 1) := mul_le_mul_of_nonneg_left h2 hx
    rw [pow_succ] at h2 h4 ⊢
    push_cast
    nlinarith [h3, h4]

/-- Claim C8: for positive principal, rate and tenure the EMI computation
succeeds, the total payment is at least the principal and the total
interest is nonnegative. -/
theorem emi_total_ge_principal (p r : ℚ) (t : ℤ)
    (hp : 0 < p) (hr : 0 < r) (ht : 0 < t) :
    ∃ res : EmiResult, emiCompute p r t = .ok res ∧
      p ≤ res.emi * (t : ℚ) ∧ 0 ≤ res.total_interest := by
  have hmr : 0 < r / 100 / 12 := by positivity
  have htn : t.toNat ≠ 0 := by omega
  have hA : (0 : ℚ) < (1 + r / 100 / 12) ^ t.toNat - 1 := denom_pos hmr htn
  have hkey : (1 + r / 100 / 12) ^ t.toNat - 1 ≤
      t.toNat * (r / 100 / 12) * (1 + r / 100 / 12) ^ t.toNat :=
    pow_sub_one_le (r / 100 / 12) hmr.le t.toNat
  have hcast : ((t.toNat : ℚ)) = (t : ℚ) := by
    exact_mod_cast Int.toNat_of_nonneg ht.le
  have hmain : p ≤ p * (r / 100 / 12) * (1 + r / 100 / 12) ^ t.toNat /
      ((1 + r / 100 / 12) ^ t.toNat - 1) * (t : ℚ) := by
    rw [← hcast, div_mul_eq_mul_div, le_div_iff₀ hA]
    nlinarith [mul_le_mul_of_nonneg_left hkey hp.le]
  refine ⟨_, emiCompute_ok p r t hr ht, ?_, ?_⟩
  · exact hmain
  · dsimp only
    linarith [hmain]

/-- Witness for C8 at a concrete loan. -/
theorem emi_total_ge_principal_witness :
    ∃ res : EmiResult, emiCompute 100000 12 12 = .ok res ∧
      (100000 : ℚ) ≤ res.emi * ((12 : ℤ) : ℚ) ∧ 0 ≤ res.total_interest :=
  emi_total_ge_principal 100000 12 12 (by norm_num) (by norm_num) (by norm_num)

/-- The tenure option loop succeeds whenever the monthly rate is positive
and every candidate tenure is positive, and emits exactly one block per
candidate different from the current tenure. -/
lemma tenureOptionsLoop_ok (L mr ci : ℚ) (T : ℤ) (l : List ℤ)
    (hm : 0 < mr) (hpos : ∀ nt ∈ l, 0 < nt) :
    tenureOptionsLoop L mr ci T l = .ok ((l.filter (fun nt => nt ≠ T)).map (fun nt =>
      ⟨nt, L * mr * (1 + mr) ^ nt.toNat / ((1 + mr) ^ nt.toNat - 1),
        ci - (L * mr * (1 + mr) ^ nt.toNat / ((1 + mr) ^ nt.toNat - 1) * (nt : ℚ) - L)⟩)) := by
  induction l with
  | nil => rfl
  | cons nt rest ih =>
    have hnt : 0 < nt := hpos nt (by simp)
    have hrest : ∀ x ∈ rest, 0 < x := fun x hx => hpos x (by simp [hx])
    simp only [tenureOptionsLoop]
    by_cases hne : nt ≠ T
    · rw [if_pos hne, pyPow_nonneg _ hnt.le]
      dsimp only
      rw [pyDiv_ok (ne_of_gt (denom_pos hm (by omega)))]
      dsimp only
      rw [ih hrest]
      dsimp only
      simp [List.filter_cons, hne]
    · rw [if_neg hne, ih hrest]
      push_neg at hne
      simp [List.filter_cons, hne]

/-- Counterexample for claim C7: a profile whose loan offer, rate and
tenure are all non-zero but whose degenerate rate of -2400 percent makes
the reducing-balance denominator vanish at its even tenure — the tool
returns the generic failure message and emits no tenure comparison at
all, so non-zero fields alone do not guarantee the four-tenure table. -/
theorem tenure_table_counterexample :
    degenerateRateProfile.loan_offer.getD 0 ≠ 0 ∧
    degenerateRateProfile.interest_rate.getD 0 ≠ 0 ∧
    degenerateRateProfile.tenure.getD 12 ≠ 0 ∧
    calculate_loan_savings degenerateRateProfile 0 = .failure := by
  refine ⟨by norm_num [degenerateRateProfile], by norm_num [degenerateRateProfile],
    by norm_num [degenerateRateProfile], ?_⟩
  have ht2 : (2 : ℤ).toNat = 2 := rfl
  norm_num [calculate_loan_savings, degenerateRateProfile, pyPow, pyPowVal, pyDiv, ht2]

/-- Claim C7 (amended): with prepayment 0, a non-zero loan offer and a
positive rate and tenure (so the amortization denominators cannot
vanish), the savings tool emits no prepayment comparison and exactly one
tenure comparison for each candidate in 12, 24, 36, 60 other than the
current tenure, each given by the reducing-balance formula at the profile
rate. -/
theorem tenure_table_amended (cd : CustomerData)
    (hL : cd.loan_offer.getD 0 ≠ 0) (hR : 0 < cd.interest_rate.getD 0)
    (hT : 0 < cd.tenure.getD 12) :
    ∃ r : SavingsResult, calculate_loan_savings cd 0 = .result r ∧
      r.prepayment = none ∧ r.tenure_options = expectedTenureOptions cd := by
  have hmr : 0 < cd.interest_rate.getD 0 / 100 / 12 := by positivity
  have hguard : ¬(cd.loan_offer.getD 0 = 0 ∨ cd.interest_rate.getD 0 = 0 ∨
      cd.tenure.getD 12 = 0) := by
    push_neg
    exact ⟨hL, ne_of_gt hR, ne_of_gt hT⟩
  simp only [calculate_loan_savings]
  rw [if_neg hguard, pyPow_nonneg _ hT.le]
  dsimp only
  rw [pyDiv_ok (ne_of_gt (denom_pos hmr (by omega)))]
  dsimp only
  rw [if_neg (by norm_num : ¬(0 : ℚ) > 0)]
  rw [tenureOptionsLoop_ok _ _ _ _ _ hmr (by intro x hx; fin_cases hx <;> norm_num)]
  dsimp only
  refine ⟨_, rfl, rfl, ?_⟩
  dsimp only
  apply List.map_congr_left
  intro a ha
  have ha4 : a ∈ ([12, 24, 36, 60] : List ℤ) := List.mem_of_mem_filter ha
  have hae : (0 : ℤ) ≤ a := by fin_cases ha4 <;> norm_num
  simp only [tenureComparisonSpec, formulaEmi, pyPowVal, if_pos hae, if_pos hT.le]

/-- Witness for C7 (amended) at a concrete profile. -/
theorem tenure_table_amended_witness :
    ∃ r : SavingsResult, calculate_loan_savings witnessProfile 0 = .result r ∧
      r.prepayment = none ∧ r.tenure_options = expectedTenureOptions witnessProfile :=
  tenure_table_amended witnessProfile (by norm_num [witnessProfile])
    (by norm_num [witnessProfile]) (by norm_num [witnessProfile])

/-- Claim C10: a prepayment at least as large as the loan offer (with a
valid current loan: positive offer, rate and tenure) yields only the
current loan structure — the prepayment comparison is silently omitted,
no tenure table is produced, and no error is raised. -/
theorem full_prepayment_only_current (cd : CustomerData) (prepayment_amount : ℚ)
    (hL : 0 < cd.loan_offer.getD 0) (hR : 0 < cd.interest_rate.getD 0)
    (hT : 0 < cd.tenure.getD 12) (hp : 0 < prepayment_amount)
    (hge : cd.loan_offer.getD 0 ≤ prepayment_amount) :
    ∃ r : SavingsResult, calculate_loan_savings cd prepayment_amount = .result r ∧
      r.prepayment = none ∧ r.tenure_options = [] := by
  have hmr : 0 < cd.interest_rate.getD 0 / 100 / 12 := by positivity
  have hguard : ¬(cd.loan_offer.getD 0 = 0 ∨ cd.interest_rate.getD 0 = 0 ∨
      cd.tenure.getD 12 = 0) := by
    push_neg
    exact ⟨ne_of_gt hL, ne_of_gt hR, ne_of_gt hT⟩
  simp only [calculate_loan_savings]
  rw [if_neg hguard, pyPow_nonneg _ hT.le]
  dsimp only
  rw [pyDiv_ok (ne_of_gt (denom_pos hmr (by omega)))]
  dsimp only
  rw [if_pos hp, if_neg (by push_neg; linarith :
    ¬cd.loan_offer.getD 0 - prepayment_amount > 0)]
  exact ⟨_, rfl, rfl, rfl⟩

/-- Witness for C10 at a concrete profile and prepayment. -/
theorem full_prepayment_only_current_witness :
    ∃ r : SavingsResult, calculate_loan_savings witnessProfile 600000 = .result r ∧
      r.prepayment = none ∧ r.tenure_options = [] :=
  full_prepayment_only_current witnessProfile 600000 (by norm_num [witnessProfile])
    (by norm_num [witnessProfile]) (by norm_num [witnessProfile]) (by norm_num)
    (by norm_num [witnessProfile])

end LoanTools
